import Mathlib

/-
  Shallow embedding of the snescon_gpio_rpi driver (snescon_gpio_rpi.c).

  A captured frame is the array data[0..23] written by pads_read: each entry
  is the negated GPIO level register, one sample per clock cycle.  We model a
  frame as a list of natural numbers read through List.getD (the C array is
  fixed size 24; out of range reads never happen in the source loops).

  The calls into the Linux input subsystem (input_report_key,
  input_report_abs, input_sync) are modelled as an event list: pads_update
  returns the new player_mode together with the events it dispatched, in
  dispatch order.
-/

def DELAY : Nat := 6

def BITS_LENGTH : Nat := 24

def MIN_NUMBER_OF_GPIOS : Nat := 3

def MAX_NUMBER_OF_GPIOS : Nat := 7

def NUMBER_OF_INPUT_DEVICES : Nat := 5

/-- Linux input key code BTN_A (0x130). -/
def BTN_A : Nat := 0x130

/-- Linux input key code BTN_B (0x131). -/
def BTN_B : Nat := 0x131

/-- Linux input key code BTN_X (0x133). -/
def BTN_X : Nat := 0x133

/-- Linux input key code BTN_Y (0x134). -/
def BTN_Y : Nat := 0x134

/-- Linux input key code BTN_TL (0x136). -/
def BTN_TL : Nat := 0x136

/-- Linux input key code BTN_TR (0x137). -/
def BTN_TR : Nat := 0x137

/-- Linux input key code BTN_SELECT (0x13a). -/
def BTN_SELECT : Nat := 0x13a

/-- Linux input key code BTN_START (0x13b). -/
def BTN_START : Nat := 0x13b

/-- Linux input absolute axis code ABS_X. -/
def ABS_X : Nat := 0

/-- Linux input absolute axis code ABS_Y. -/
def ABS_Y : Nat := 1

/-- Mirror of the C array nes_btn_label. -/
def nes_btn_label : List Nat := [BTN_A, BTN_B, BTN_SELECT, BTN_START, BTN_X, BTN_Y, BTN_TL, BTN_TR]

/-- Mirror of the C array snes_btn_label. -/
def snes_btn_label : List Nat := [BTN_B, BTN_Y, BTN_SELECT, BTN_START, BTN_A, BTN_X, BTN_TL, BTN_TR]

/-- Mirror of the C array btn_index. -/
def btn_index : List Nat := [0, 1, 2, 3, 8, 9, 10, 11]

/-- Embedding of the C logical negation operator applied to an unsigned int,
used in an arithmetic context: bang x is 1 when x is 0, and 0 otherwise. -/
def bang (x : Nat) : Int := if x = 0 then 1 else 0

/-- Embedding of struct pads_config.  The field gpio maps an index in the C
array gpio[MAX_NUMBER_OF_GPIOS] to the single bit mask stored there
(gpio_get_bit of the configured pin id, 0 for unset entries of the
statically zero initialised array).  The input_dev pointers are not part of
the decode logic; events carry the slot index instead. -/
structure PadsConfig where
  gpio : Nat → Nat
  n_pads : Nat
  n_pad_gpios : Nat
  player_mode : Nat
  fourscore_enabled : Bool

/-- Dispatched input events, in the order the C code emits them.  key models
input_report_key (value is the raw unsigned int passed, nonzero means
pressed), abs models input_report_abs and sync models input_sync. -/
inductive Ev where
  | key (slot : Nat) (label : Nat) (value : Nat)
  | abs (slot : Nat) (axis : Nat) (value : Int)
  | sync (slot : Nat)
deriving DecidableEq

/-- Slot index an event is dispatched to (the index into cfg.pad). -/
def ev_slot : Ev → Nat
  | Ev.key s _ _ => s
  | Ev.abs s _ _ => s
  | Ev.sync s => s

/-- Embedding of fourscore_connected: sixteen bit tests of data[16..23]
against the masks gpio[2] and gpio[3].  A C test !(m & d) is m &&& d = 0 and
a bare (m & d) is m &&& d different from 0. -/
def fourscore_connected (cfg : PadsConfig) (data : List Nat) : Bool :=
  (cfg.gpio 2 &&& data.getD 16 0 == 0) && (cfg.gpio 3 &&& data.getD 16 0 == 0) &&
  (cfg.gpio 2 &&& data.getD 17 0 == 0) && (cfg.gpio 3 &&& data.getD 17 0 == 0) &&
  (cfg.gpio 2 &&& data.getD 18 0 == 0) && (cfg.gpio 3 &&& data.getD 18 0 != 0) &&
  (cfg.gpio 2 &&& data.getD 19 0 != 0) && (cfg.gpio 3 &&& data.getD 19 0 == 0) &&
  (cfg.gpio 2 &&& data.getD 20 0 == 0) && (cfg.gpio 3 &&& data.getD 20 0 == 0) &&
  (cfg.gpio 2 &&& data.getD 21 0 == 0) && (cfg.gpio 3 &&& data.getD 21 0 == 0) &&
  (cfg.gpio 2 &&& data.getD 22 0 == 0) && (cfg.gpio 3 &&& data.getD 22 0 == 0) &&
  (cfg.gpio 2 &&& data.getD 23 0 == 0) && (cfg.gpio 3 &&& data.getD 23 0 == 0)

/-- Embedding of pads_clear: for i below n_devs, zero all eight SNES buttons,
both axes, and sync, on the pad at index (n_pads - 1) - i. -/
def pads_clear (cfg : PadsConfig) (n_devs : Nat) : List Ev :=
  (List.range n_devs).flatMap fun i =>
    ((List.range 8).map fun j => Ev.key (cfg.n_pads - 1 - i) (snes_btn_label.getD j 0) 0)
    ++ [Ev.abs (cfg.n_pads - 1 - i) ABS_X 0,
        Ev.abs (cfg.n_pads - 1 - i) ABS_Y 0,
        Ev.sync (cfg.n_pads - 1 - i)]

/-- Events of one loop body of the FourScore player 1 and 2 loop in
pads_update, for slot i (0 or 1), using the mask g = cfg.gpio (i + 2). -/
def fourscore_lo_evs (cfg : PadsConfig) (data : List Nat) (i : Nat) : List Ev :=
  ((List.range 4).map fun j =>
    Ev.key i (nes_btn_label.getD j 0) (cfg.gpio (i + 2) &&& data.getD (btn_index.getD j 0) 0))
  ++ [Ev.abs i ABS_X (bang (cfg.gpio (i + 2) &&& data.getD 6 0) -
                      bang (cfg.gpio (i + 2) &&& data.getD 7 0)),
      Ev.abs i ABS_Y (bang (cfg.gpio (i + 2) &&& data.getD 4 0) -
                      bang (cfg.gpio (i + 2) &&& data.getD 5 0)),
      Ev.sync i]

/-- Events of one loop body of the FourScore player 3 and 4 loop in
pads_update, for slot i (2 or 3), using the mask g = cfg.gpio i and button
sample indices btn_index[j] + 8. -/
def fourscore_hi_evs (cfg : PadsConfig) (data : List Nat) (i : Nat) : List Ev :=
  ((List.range 4).map fun j =>
    Ev.key i (nes_btn_label.getD j 0) (cfg.gpio i &&& data.getD (btn_index.getD j 0 + 8) 0))
  ++ [Ev.abs i ABS_X (bang (cfg.gpio i &&& data.getD 14 0) -
                      bang (cfg.gpio i &&& data.getD 15 0)),
      Ev.abs i ABS_Y (bang (cfg.gpio i &&& data.getD 12 0) -
                      bang (cfg.gpio i &&& data.getD 13 0)),
      Ev.sync i]

/-- Events of the SNES branch of the plain loop body, for slot i. -/
def snes_slot_evs (cfg : PadsConfig) (data : List Nat) (i : Nat) : List Ev :=
  ((List.range 8).map fun j =>
    Ev.key i (snes_btn_label.getD j 0) (cfg.gpio (i + 2) &&& data.getD (btn_index.getD j 0) 0))
  ++ [Ev.abs i ABS_X (bang (cfg.gpio (i + 2) &&& data.getD 6 0) -
                      bang (cfg.gpio (i + 2) &&& data.getD 7 0)),
      Ev.abs i ABS_Y (bang (cfg.gpio (i + 2) &&& data.getD 4 0) -
                      bang (cfg.gpio (i + 2) &&& data.getD 5 0)),
      Ev.sync i]

/-- Events of the NES branch of the plain loop body, for slot i: four button
reports from the frame, four explicit zero reports, both axes and sync. -/
def nes_slot_evs (cfg : PadsConfig) (data : List Nat) (i : Nat) : List Ev :=
  ((List.range 4).map fun j =>
    Ev.key i (nes_btn_label.getD j 0) (cfg.gpio (i + 2) &&& data.getD (btn_index.getD j 0) 0))
  ++ ((List.range' 4 4).map fun j => Ev.key i (nes_btn_label.getD j 0) 0)
  ++ [Ev.abs i ABS_X (bang (cfg.gpio (i + 2) &&& data.getD 6 0) -
                      bang (cfg.gpio (i + 2) &&& data.getD 7 0)),
      Ev.abs i ABS_Y (bang (cfg.gpio (i + 2) &&& data.getD 4 0) -
                      bang (cfg.gpio (i + 2) &&& data.getD 5 0)),
      Ev.sync i]

/-- One loop body of the plain multiplexed loop of pads_update: the source
tests ((g & data[16]) == 1) to pick the SNES branch, otherwise NES. -/
def plain_slot_evs (cfg : PadsConfig) (data : List Nat) (i : Nat) : List Ev :=
  if cfg.gpio (i + 2) &&& data.getD 16 0 == 1 then snes_slot_evs cfg data i
  else nes_slot_evs cfg data i

/-- Embedding of the FourScore branch of pads_update, after pads_read:
players 1 and 2 from gpio[i + 2], players 3 and 4 from gpio[i], then the
player_mode update together with the defensive clear. -/
def pads_update_fourscore (cfg : PadsConfig) (data : List Nat) : Nat × List Ev :=
  let evs := (List.range 2).flatMap (fourscore_lo_evs cfg data)
          ++ (List.range' 2 2).flatMap (fourscore_hi_evs cfg data)
  if 4 < cfg.player_mode then (4, evs ++ pads_clear cfg 1)
  else if cfg.player_mode < 4 then (4, evs)
  else (cfg.player_mode, evs)

/-- Embedding of the plain multiplexed branch of pads_update: decode each of
the n_pad_gpios slots, then clamp player_mode and clear
(n_pads - n_pad_gpios) pads when player_mode exceeded n_pad_gpios. -/
def pads_update_plain (cfg : PadsConfig) (data : List Nat) : Nat × List Ev :=
  let evs := (List.range cfg.n_pad_gpios).flatMap (plain_slot_evs cfg data)
  if cfg.n_pad_gpios < cfg.player_mode then
    (cfg.n_pad_gpios, evs ++ pads_clear cfg (cfg.n_pads - cfg.n_pad_gpios))
  else (cfg.player_mode, evs)

/-- Embedding of pads_update on an already captured frame: the FourScore
branch is taken when fourscore_enabled is set and fourscore_connected holds,
otherwise the plain multiplexed branch runs.  The result is the new
player_mode and the dispatched events. -/
def pads_update (cfg : PadsConfig) (data : List Nat) : Nat × List Ev :=
  if cfg.fourscore_enabled && fourscore_connected cfg data then
    pads_update_fourscore cfg data
  else pads_update_plain cfg data

/-- GPIO operations performed by pads_read, in order.  set and clear act on a
bit mask, wait is udelay in microseconds, and sample i is the
gpio_read_all call whose result is stored into data[i]. -/
inductive GpioOp where
  | set (mask : Nat)
  | clear (mask : Nat)
  | wait (us : Nat)
  | sample (idx : Nat)
deriving DecidableEq

/-- Embedding of pads_read as the ordered trace of its GPIO operations, with
clk = cfg.gpio 0 and latch = cfg.gpio 1. -/
def pads_read_trace (clk latch : Nat) : List GpioOp :=
  [GpioOp.set (clk ||| latch), GpioOp.wait (DELAY * 2), GpioOp.clear latch]
  ++ (List.range BITS_LENGTH).flatMap fun i =>
      [GpioOp.wait DELAY, GpioOp.clear clk, GpioOp.sample i, GpioOp.wait DELAY, GpioOp.set clk]

/-- Spec side description of one capture cycle, following the words of the
specification: wait DELAY, drop clock, sample all pins into the next frame
position, wait DELAY, raise clock. -/
def capture_cycle (clk : Nat) (i : Nat) : List GpioOp :=
  [GpioOp.wait DELAY, GpioOp.clear clk, GpioOp.sample i, GpioOp.wait DELAY, GpioOp.set clk]

/-- Spec side description of the repeated part of the capture sequence: n
capture cycles, one per frame position, in clock cycle order. -/
def capture_spec_loop (clk : Nat) : Nat → List GpioOp
  | 0 => []
  | n + 1 => capture_spec_loop clk n ++ capture_cycle clk n

/-- Frame position written by a sample operation. -/
def sample_index : GpioOp → Option Nat
  | GpioOp.sample i => some i
  | _ => none

/-- Mirror of the C array all_valid_gpio. -/
def all_valid_gpio : List Nat :=
  [0, 1, 2, 3, 4, 5, 6, 7, 8, 9, 10, 11, 12, 13, 14, 15, 16, 17,
   18, 19, 20, 21, 22, 23, 24, 25, 26, 27]

/-- Embedding of gpio_valid: linear scan of all_valid_gpio for g_id. -/
def gpio_valid (g_id : Nat) : Bool :=
  all_valid_gpio.any fun x => g_id == x

/-- Embedding of gpio_list_valid: every one of the first len entries of the
list must be a valid GPIO id. -/
def gpio_list_valid (list : List Nat) (len : Nat) : Bool :=
  (List.range len).all fun i => gpio_valid (list.getD i 0)

/-- Embedding of gpio_get_bit. -/
def gpio_get_bit (g_id : Nat) : Nat := 2 ^ g_id

/-- Validation part of snescon_init, in source order: pin count at least
MIN_NUMBER_OF_GPIOS, at most MAX_NUMBER_OF_GPIOS, at least
MIN_NUMBER_OF_GPIOS + 1 when fourscore is enabled, and every configured pin
id valid. -/
def snescon_init_valid (gpio_id : List Nat) (cnt : Nat) (fourscore : Bool) : Bool :=
  if cnt < MIN_NUMBER_OF_GPIOS then false
  else if MAX_NUMBER_OF_GPIOS < cnt then false
  else if fourscore && decide (cnt < MIN_NUMBER_OF_GPIOS + 1) then false
  else gpio_list_valid gpio_id cnt

/-- Pad count computed by snescon_init after validation. -/
def init_n_pads (cnt : Nat) (fourscore : Bool) : Nat :=
  if fourscore && decide (cnt < 4) then 4 else cnt - 2

/-- Embedding of the configuration building part of snescon_init: none on a
validation failure (the module load aborts with -EINVAL before any polling),
otherwise the PadsConfig the driver will poll with.  Unset entries of the
static gpio array stay 0 and player_mode starts at 0. -/
def snescon_init_cfg (gpio_id : List Nat) (cnt : Nat) (fourscore : Bool) : Option PadsConfig :=
  if snescon_init_valid gpio_id cnt fourscore then
    some { gpio := fun i => if i < cnt then gpio_get_bit (gpio_id.getD i 0) else 0,
           n_pads := init_n_pads cnt fourscore,
           n_pad_gpios := cnt - 2,
           player_mode := 0,
           fourscore_enabled := fourscore }
  else none

/-- Selector used to collect the key events dispatched to slot i, as pairs
of label and raw value, in dispatch order. -/
def keySel (i : Nat) : Ev → Option (Nat × Nat)
  | Ev.key s l v => if s = i then some (l, v) else none
  | _ => none

/-- Key events dispatched to slot i, as label and value pairs in order. -/
def slot_keys (evs : List Ev) (i : Nat) : List (Nat × Nat) :=
  evs.filterMap (keySel i)

/-- Selector used to collect the values reported on one axis of slot i. -/
def absSel (i axis : Nat) : Ev → Option Int
  | Ev.abs s a v => if s = i ∧ a = axis then some v else none
  | _ => none

/-- Axis values reported to slot i on the given axis, in dispatch order. -/
def abs_values (evs : List Ev) (i axis : Nat) : List Int :=
  evs.filterMap (absSel i axis)

/-- Spec side reading of the FourScore signature used by claim C2: on both
tested line masks every tested bit of the samples at indices 16 to 23 is
low, except the gpio[3] bit of sample 18 and the gpio[2] bit of sample 19. -/
def fourscore_signature_spec (cfg : PadsConfig) (data : List Nat) : Prop :=
  ∀ k, k < 8 →
    (((cfg.gpio 2 &&& data.getD (16 + k) 0) ≠ 0) ↔ k = 3) ∧
    (((cfg.gpio 3 &&& data.getD (16 + k) 0) ≠ 0) ↔ k = 2)

instance (cfg : PadsConfig) (data : List Nat) : Decidable (fourscore_signature_spec cfg data) :=
  Nat.decidableBallLT 8 fun k _ =>
    (((cfg.gpio 2 &&& data.getD (16 + k) 0) ≠ 0) ↔ k = 3) ∧
    (((cfg.gpio 3 &&& data.getD (16 + k) 0) ≠ 0) ↔ k = 2)

/-
  Concrete configurations and frames used by closed evaluation theorems.
  Masks are gpio_get_bit values of real pins: 16 = bit of GPIO 4, 4 = bit of
  GPIO 2, 8 = bit of GPIO 3 (GPIO 4 is the first data pin of the default
  module configuration <2, 3, 4, 7, 9, 10, 11>).
-/

/-- Configuration with one data line on GPIO 4 (mask 16), plain mode. -/
def cfgC1 : PadsConfig :=
  { gpio := fun i => if i = 2 then 16 else 0,
    n_pads := 1, n_pad_gpios := 1, player_mode := 1, fourscore_enabled := false }

/-- Frame whose sample 16 has the GPIO 4 bit set and all other samples 0. -/
def dataC1 : List Nat := [0, 0, 0, 0, 0, 0, 0, 0, 0, 0, 0, 0, 0, 0, 0, 0, 16, 0, 0, 0, 0, 0, 0, 0]

/-- FourScore enabled configuration with data lines on GPIO 2 and GPIO 3. -/
def cfgW2 : PadsConfig :=
  { gpio := fun i => if i = 2 then 4 else if i = 3 then 8 else 0,
    n_pads := 2, n_pad_gpios := 2, player_mode := 0, fourscore_enabled := true }

/-- Frame deviating from the FourScore signature in a single tested bit: the
gpio[2] bit of sample 16 is high. -/
def dataW2 : List Nat := [0, 0, 0, 0, 0, 0, 0, 0, 0, 0, 0, 0, 0, 0, 0, 0, 4, 0, 0, 0, 0, 0, 0, 0]

/-- Configuration shaped as snescon_init would build it for five configured
GPIOs (n_pads = n_pad_gpios = 3), with player_mode raised to 5 as in the
mode shrink scenario of the specification. -/
def cfgC3 : PadsConfig :=
  { gpio := fun i => if i = 2 then 16 else if i = 3 then 128 else if i = 4 then 512 else 0,
    n_pads := 3, n_pad_gpios := 3, player_mode := 5, fourscore_enabled := false }

/-- All zero frame. -/
def dataC3 : List Nat := []

/-- Configuration with one data line on GPIO 4 (mask 16), plain mode. -/
def cfgC4 : PadsConfig :=
  { gpio := fun i => if i = 2 then 16 else 0,
    n_pads := 1, n_pad_gpios := 1, player_mode := 0, fourscore_enabled := false }

/-- Frame whose sample 7 has the GPIO 4 bit set: sample 6 low, sample 7 high. -/
def dataC4 : List Nat := [0, 0, 0, 0, 0, 0, 0, 16, 0, 0, 0, 0, 0, 0, 0, 0, 0, 0, 0, 0, 0, 0, 0, 0]

/-- Frame whose sample 6 has the GPIO 4 bit set: sample 6 high, sample 7 low. -/
def dataW5 : List Nat := [0, 0, 0, 0, 0, 0, 16, 0, 0, 0, 0, 0, 0, 0, 0, 0, 0, 0, 0, 0, 0, 0, 0, 0]

/-- FourScore enabled two data line configuration (GPIO 2 and GPIO 3). -/
def cfgW6 : PadsConfig :=
  { gpio := fun i => if i = 2 then 4 else if i = 3 then 8 else 0,
    n_pads := 2, n_pad_gpios := 2, player_mode := 0, fourscore_enabled := true }

/-- Frame carrying the exact FourScore signature for cfgW6: every tested bit
low except the gpio[3] bit of sample 18 and the gpio[2] bit of sample 19. -/
def dataW6 : List Nat := [0, 0, 0, 0, 0, 0, 0, 0, 0, 0, 0, 0, 0, 0, 0, 0, 0, 0, 8, 4, 0, 0, 0, 0]

/-- Configuration with one data line on GPIO 4 (mask 16), plain mode. -/
def cfgW8 : PadsConfig :=
  { gpio := fun i => if i = 2 then 16 else 0,
    n_pads := 1, n_pad_gpios := 1, player_mode := 0, fourscore_enabled := false }

/-- Frame with the GPIO 4 bit set in sample 0 only: button A pressed on a
NES pad, discriminant sample 16 low. -/
def dataW8 : List Nat := [16, 0, 0, 0, 0, 0, 0, 0, 0, 0, 0, 0, 0, 0, 0, 0, 0, 0, 0, 0, 0, 0, 0, 0]

/-- Three data line plain configuration with player_mode 3. -/
def cfgW10 : PadsConfig :=
  { gpio := fun i => if i = 2 then 16 else if i = 3 then 128 else if i = 4 then 512 else 0,
    n_pads := 3, n_pad_gpios := 3, player_mode := 3, fourscore_enabled := false }

/-- All zero frame. -/
def dataW10 : List Nat := []

/-
  Helper lemmas: extracting the events of one slot from a pads_update run.
-/

theorem keySel_eq_none {i : Nat} {e : Ev} (h : ev_slot e ≠ i) : keySel i e = none := by
  cases e with
  | key s l v =>
    simp only [keySel]
    exact if_neg h
  | abs s a v => rfl
  | sync s => rfl

theorem absSel_eq_none {i axis : Nat} {e : Ev} (h : ev_slot e ≠ i) : absSel i axis e = none := by
  cases e with
  | abs s a v =>
    simp only [absSel]
    exact if_neg fun hc => h hc.1
  | key s l v => rfl
  | sync s => rfl

theorem filterMap_sel_nil {α : Type} (sel : Ev → Option α) (i : Nat)
    (hsel : ∀ e, ev_slot e ≠ i → sel e = none) :
    ∀ l : List Ev, (∀ e ∈ l, ev_slot e ≠ i) → l.filterMap sel = [] := by
  intro l
  induction l with
  | nil => intro _; rfl
  | cons e t ih =>
    intro h
    rw [List.filterMap_cons, hsel e (h e (List.mem_cons_self e t))]
    exact ih fun x hx => h x (List.mem_cons_of_mem e hx)

theorem ev_slot_of_mem_snes {cfg : PadsConfig} {data : List Nat} {i : Nat} {e : Ev}
    (he : e ∈ snes_slot_evs cfg data i) : ev_slot e = i := by
  simp only [snes_slot_evs, List.mem_append, List.mem_map, List.mem_range, List.mem_cons,
    List.not_mem_nil, or_false] at he
  rcases he with ⟨j, _, rfl⟩ | rfl | rfl | rfl <;> rfl

theorem ev_slot_of_mem_nes {cfg : PadsConfig} {data : List Nat} {i : Nat} {e : Ev}
    (he : e ∈ nes_slot_evs cfg data i) : ev_slot e = i := by
  simp only [nes_slot_evs, List.mem_append, List.mem_map, List.mem_range, List.mem_range',
    List.mem_cons, List.not_mem_nil, or_false] at he
  rcases he with (⟨j, _, rfl⟩ | ⟨j, _, rfl⟩) | rfl | rfl | rfl <;> rfl

theorem ev_slot_of_mem_plain {cfg : PadsConfig} {data : List Nat} {i : Nat} {e : Ev}
    (he : e ∈ plain_slot_evs cfg data i) : ev_slot e = i := by
  unfold plain_slot_evs at he
  split at he
  · exact ev_slot_of_mem_snes he
  · exact ev_slot_of_mem_nes he

theorem ev_slot_of_mem_clear {cfg : PadsConfig} {n : Nat} {e : Ev}
    (he : e ∈ pads_clear cfg n) : ∃ k, k < n ∧ ev_slot e = cfg.n_pads - 1 - k := by
  simp only [pads_clear, List.mem_flatMap, List.mem_range, List.mem_append, List.mem_map,
    List.mem_cons, List.not_mem_nil, or_false] at he
  obtain ⟨k, hk, hm⟩ := he
  refine ⟨k, hk, ?_⟩
  rcases hm with ⟨j, _, rfl⟩ | rfl | rfl | rfl <;> rfl

theorem filterMap_flatMap_range {α : Type} (sel : Ev → Option α) (i : Nat)
    (hsel : ∀ e, ev_slot e ≠ i → sel e = none)
    (f : Nat → List Ev) (hf : ∀ j e, e ∈ f j → ev_slot e = j) :
    ∀ n, ((List.range n).flatMap f).filterMap sel
      = if i < n then (f i).filterMap sel else [] := by
  intro n
  induction n with
  | zero => simp
  | succ n ih =>
    rw [List.range_succ, List.flatMap_append, List.filterMap_append, ih]
    have hone : ([n] : List Nat).flatMap f = f n := by simp
    rw [hone]
    by_cases h1 : i < n
    · have h2 : i < n + 1 := by omega
      have h3 : (f n).filterMap sel = [] :=
        filterMap_sel_nil sel i hsel (f n) fun e he => by rw [hf n e he]; omega
      simp [h1, h2, h3]
    · by_cases h2 : i = n
      · subst h2
        simp [h1, Nat.lt_succ_self]
      · have h3 : ¬ i < n + 1 := by omega
        have h4 : (f n).filterMap sel = [] :=
          filterMap_sel_nil sel i hsel (f n) fun e he => by rw [hf n e he]; omega
        simp [h1, h3, h4]

theorem pads_update_plain_eq {cfg : PadsConfig} {data : List Nat}
    (hfs : (cfg.fourscore_enabled && fourscore_connected cfg data) = false) :
    pads_update cfg data = pads_update_plain cfg data := by
  simp [pads_update, hfs]

theorem plain_filterMap {α : Type} (sel : Ev → Option α)
    {cfg : PadsConfig} {data : List Nat} {i : Nat}
    (hsel : ∀ e, ev_slot e ≠ i → sel e = none)
    (hfs : (cfg.fourscore_enabled && fourscore_connected cfg data) = false)
    (hi : i < cfg.n_pad_gpios) :
    ((pads_update cfg data).2).filterMap sel = (plain_slot_evs cfg data i).filterMap sel := by
  rw [pads_update_plain_eq hfs]
  have hdec := filterMap_flatMap_range sel i hsel (plain_slot_evs cfg data)
    (fun _ _ he => ev_slot_of_mem_plain he) cfg.n_pad_gpios
  rw [if_pos hi] at hdec
  have hclear : (pads_clear cfg (cfg.n_pads - cfg.n_pad_gpios)).filterMap sel = [] := by
    apply filterMap_sel_nil sel i hsel
    intro e he
    obtain ⟨k, hk, hslot⟩ := ev_slot_of_mem_clear he
    rw [hslot]
    omega
  simp only [pads_update_plain]
  split
  · show ((List.range cfg.n_pad_gpios).flatMap (plain_slot_evs cfg data)
      ++ pads_clear cfg (cfg.n_pads - cfg.n_pad_gpios)).filterMap sel = _
    rw [List.filterMap_append, hdec, hclear, List.append_nil]
  · exact hdec

theorem slot_keys_nes_block (cfg : PadsConfig) (data : List Nat) (i : Nat) :
    slot_keys (nes_slot_evs cfg data i) i =
      [(BTN_A, cfg.gpio (i + 2) &&& data.getD 0 0),
       (BTN_B, cfg.gpio (i + 2) &&& data.getD 1 0),
       (BTN_SELECT, cfg.gpio (i + 2) &&& data.getD 2 0),
       (BTN_START, cfg.gpio (i + 2) &&& data.getD 3 0),
       (BTN_X, 0), (BTN_Y, 0), (BTN_TL, 0), (BTN_TR, 0)] := by
  show List.filterMap (keySel i) _ = _
  rw [nes_slot_evs]
  rw [show List.range 4 = [0, 1, 2, 3] from rfl, show List.range' 4 4 = [4, 5, 6, 7] from rfl]
  simp only [List.map_cons, List.map_nil, List.filterMap_append, List.filterMap_cons,
    List.filterMap_nil, keySel, if_pos, eq_self_iff_true, if_true]
  rfl

theorem abs_block_x (cfg : PadsConfig) (data : List Nat) (i : Nat) :
    (plain_slot_evs cfg data i).filterMap (absSel i ABS_X) =
      [bang (cfg.gpio (i + 2) &&& data.getD 6 0) - bang (cfg.gpio (i + 2) &&& data.getD 7 0)] := by
  unfold plain_slot_evs
  split <;>
  · first
    | rw [snes_slot_evs, show List.range 8 = [0, 1, 2, 3, 4, 5, 6, 7] from rfl]
    | rw [nes_slot_evs, show List.range 4 = [0, 1, 2, 3] from rfl,
          show List.range' 4 4 = [4, 5, 6, 7] from rfl]
    simp only [List.map_cons, List.map_nil, List.filterMap_append, List.filterMap_cons,
      List.filterMap_nil, absSel, ABS_X, ABS_Y, eq_self_iff_true, and_self, if_true,
      Nat.one_ne_zero, and_false, if_false]
    rfl

theorem abs_block_y (cfg : PadsConfig) (data : List Nat) (i : Nat) :
    (plain_slot_evs cfg data i).filterMap (absSel i ABS_Y) =
      [bang (cfg.gpio (i + 2) &&& data.getD 4 0) - bang (cfg.gpio (i + 2) &&& data.getD 5 0)] := by
  unfold plain_slot_evs
  split <;>
  · first
    | rw [snes_slot_evs, show List.range 8 = [0, 1, 2, 3, 4, 5, 6, 7] from rfl]
    | rw [nes_slot_evs, show List.range 4 = [0, 1, 2, 3] from rfl,
          show List.range' 4 4 = [4, 5, 6, 7] from rfl]
    simp only [List.map_cons, List.map_nil, List.filterMap_append, List.filterMap_cons,
      List.filterMap_nil, absSel, ABS_X, ABS_Y, eq_self_iff_true, and_self, if_true,
      Nat.zero_ne_one, and_false, if_false]
    rfl

theorem plain_abs_x {cfg : PadsConfig} {data : List Nat} {i : Nat}
    (hfs : (cfg.fourscore_enabled && fourscore_connected cfg data) = false)
    (hi : i < cfg.n_pad_gpios) :
    abs_values ((pads_update cfg data).2) i ABS_X =
      [bang (cfg.gpio (i + 2) &&& data.getD 6 0) - bang (cfg.gpio (i + 2) &&& data.getD 7 0)] := by
  show List.filterMap (absSel i ABS_X) _ = _
  rw [plain_filterMap (absSel i ABS_X) (fun _ he => absSel_eq_none he) hfs hi]
  exact abs_block_x cfg data i

theorem plain_abs_y {cfg : PadsConfig} {data : List Nat} {i : Nat}
    (hfs : (cfg.fourscore_enabled && fourscore_connected cfg data) = false)
    (hi : i < cfg.n_pad_gpios) :
    abs_values ((pads_update cfg data).2) i ABS_Y =
      [bang (cfg.gpio (i + 2) &&& data.getD 4 0) - bang (cfg.gpio (i + 2) &&& data.getD 5 0)] := by
  show List.filterMap (absSel i ABS_Y) _ = _
  rw [plain_filterMap (absSel i ABS_Y) (fun _ he => absSel_eq_none he) hfs hi]
  exact abs_block_y cfg data i

theorem bang_sub_cases (a b : Nat) :
    bang a - bang b = -1 ∨ bang a - bang b = 0 ∨ bang a - bang b = 1 := by
  unfold bang
  split <;> split <;> norm_num

theorem bang_eq_one {x : Nat} (h : x = 0) : bang x = 1 := by
  rw [bang, if_pos h]

theorem bang_eq_zero {x : Nat} (h : x ≠ 0) : bang x = 0 := by
  rw [bang, if_neg h]

theorem fourscore_connected_iff_spec (cfg : PadsConfig) (data : List Nat) :
    fourscore_connected cfg data = true ↔ fourscore_signature_spec cfg data := by
  unfold fourscore_connected fourscore_signature_spec
  simp only [Bool.and_eq_true, beq_iff_eq, bne_iff_ne, and_assoc]
  constructor
  · intro h
    obtain ⟨h1, h2, h3, h4, h5, h6, h7, h8, h9, h10, h11, h12, h13, h14, h15, h16⟩ := h
    intro k hk
    interval_cases k <;> simp_all
  · intro h
    have toz : ∀ (x : Nat) (p : Prop), (x ≠ 0 ↔ p) → ¬p → x = 0 :=
      fun _ _ hiff hnp => not_ne_iff.mp fun hx => hnp (hiff.mp hx)
    exact ⟨toz _ _ (h 0 (by omega)).1 (by omega), toz _ _ (h 0 (by omega)).2 (by omega),
           toz _ _ (h 1 (by omega)).1 (by omega), toz _ _ (h 1 (by omega)).2 (by omega),
           toz _ _ (h 2 (by omega)).1 (by omega), (h 2 (by omega)).2.mpr rfl,
           (h 3 (by omega)).1.mpr rfl, toz _ _ (h 3 (by omega)).2 (by omega),
           toz _ _ (h 4 (by omega)).1 (by omega), toz _ _ (h 4 (by omega)).2 (by omega),
           toz _ _ (h 5 (by omega)).1 (by omega), toz _ _ (h 5 (by omega)).2 (by omega),
           toz _ _ (h 6 (by omega)).1 (by omega), toz _ _ (h 6 (by omega)).2 (by omega),
           toz _ _ (h 7 (by omega)).1 (by omega), toz _ _ (h 7 (by omega)).2 (by omega)⟩

theorem pads_update_fourscore_mode {cfg : PadsConfig} {data : List Nat}
    (h : (cfg.fourscore_enabled && fourscore_connected cfg data) = true) :
    (pads_update cfg data).1 = 4 := by
  simp only [pads_update, h, if_true]
  simp only [pads_update_fourscore]
  split_ifs <;> first | rfl | omega

theorem pads_update_plain_mode_le {cfg : PadsConfig} {data : List Nat}
    (h : (cfg.fourscore_enabled && fourscore_connected cfg data) = false) :
    (pads_update cfg data).1 ≤ cfg.player_mode := by
  rw [pads_update_plain_eq h]
  simp only [pads_update_plain]
  split_ifs <;> omega

theorem gpio_valid_iff (g : Nat) : gpio_valid g = true ↔ g ∈ all_valid_gpio := by
  unfold gpio_valid
  rw [List.any_eq_true]
  constructor
  · rintro ⟨x, hx, he⟩
    rw [beq_iff_eq] at he
    rw [he]
    exact hx
  · intro hg
    exact ⟨g, hg, by simp⟩

theorem gpio_list_valid_false_iff (l : List Nat) (len : Nat) :
    gpio_list_valid l len = false ↔ ∃ i, i < len ∧ l.getD i 0 ∉ all_valid_gpio := by
  unfold gpio_list_valid
  rw [← Bool.not_eq_true, List.all_eq_true]
  push_neg
  constructor
  · rintro ⟨i, hi, hv⟩
    rw [List.mem_range] at hi
    exact ⟨i, hi, fun hm => hv ((gpio_valid_iff _).mpr hm)⟩
  · rintro ⟨i, hi, hv⟩
    refine ⟨i, List.mem_range.mpr hi, fun ht => hv ((gpio_valid_iff _).mp ht)⟩

theorem snescon_init_valid_false_iff (gpio_id : List Nat) (cnt : Nat) (fourscore : Bool) :
    snescon_init_valid gpio_id cnt fourscore = false ↔
      (cnt < 3 ∨ 7 < cnt ∨ (fourscore = true ∧ cnt < 4)
       ∨ ∃ i, i < cnt ∧ gpio_id.getD i 0 ∉ all_valid_gpio) := by
  unfold snescon_init_valid
  rw [show MIN_NUMBER_OF_GPIOS = 3 from rfl, show MAX_NUMBER_OF_GPIOS = 7 from rfl]
  by_cases h1 : cnt < 3
  · rw [if_pos h1]
    exact iff_of_true rfl (Or.inl h1)
  · rw [if_neg h1]
    by_cases h2 : 7 < cnt
    · rw [if_pos h2]
      exact iff_of_true rfl (Or.inr (Or.inl h2))
    · rw [if_neg h2]
      by_cases h3 : fourscore = true ∧ cnt < 4
      · have hb : (fourscore && decide (cnt < 3 + 1)) = true := by
          rw [h3.1]
          simpa using h3.2
        rw [if_pos hb]
        exact iff_of_true rfl (Or.inr (Or.inr (Or.inl h3)))
      · have hb : ¬ (fourscore && decide (cnt < 3 + 1)) = true := by
          intro hc
          rw [Bool.and_eq_true] at hc
          exact h3 ⟨hc.1, by simpa using hc.2⟩
        rw [if_neg hb]
        rw [gpio_list_valid_false_iff]
        constructor
        · intro h
          exact Or.inr (Or.inr (Or.inr h))
        · rintro (h | h | h | h)
          · exact absurd h h1
          · exact absurd h h2
          · exact absurd h h3
          · exact h

theorem snescon_init_cfg_none_iff (gpio_id : List Nat) (cnt : Nat) (fourscore : Bool) :
    snescon_init_cfg gpio_id cnt fourscore = none ↔
      snescon_init_valid gpio_id cnt fourscore = false := by
  unfold snescon_init_cfg
  split
  · rename_i h
    simp [h]
  · rename_i h
    simp only [Bool.not_eq_true] at h
    simp [h]

/-- C1: the source decides the SNES branch with ((g & data[16]) == 1), not
with a nonzero test.  At the concrete configuration cfgC1 (data line on
GPIO 4, mask 16) and frame dataC1 whose sample 16 has that bit set, the
pin bit at sample 16 is nonzero, yet the slot is decoded through the NES
branch: only the four NES buttons come from the frame and the four SNES
only buttons are dispatched as 0.  This evaluates the code at the failing
input of the code_bug verdict for the claim that a nonzero bit selects the
SNES decode. -/
theorem snes_discriminant_eval_bug :
    (cfgC1.gpio 2 &&& dataC1.getD 16 0) ≠ 0
    ∧ plain_slot_evs cfgC1 dataC1 0 = nes_slot_evs cfgC1 dataC1 0
    ∧ slot_keys ((pads_update cfgC1 dataC1).2) 0 =
        [(BTN_A, 0), (BTN_B, 0), (BTN_SELECT, 0), (BTN_START, 0),
         (BTN_X, 0), (BTN_Y, 0), (BTN_TL, 0), (BTN_TR, 0)] :=
  ⟨by decide, by decide, by decide⟩

/-- C2: pads_update uses FourScore decoding on a poll exactly when
fourscore_enabled is set and the frame carries the fixed signature on the
two tested line masks gpio[2] and gpio[3]: all sixteen tested bits of
samples 16 to 23 low except the gpio[3] bit of sample 18 and the gpio[2]
bit of sample 19.  Moreover a deviation in any single tested bit forces
the plain multiplexed decoding. -/
theorem fourscore_selection_iff (cfg : PadsConfig) (data : List Nat) :
    (pads_update cfg data =
      if cfg.fourscore_enabled = true ∧ fourscore_signature_spec cfg data
      then pads_update_fourscore cfg data else pads_update_plain cfg data)
    ∧ (∀ k, k < 8 → ∀ l, l = 2 ∨ l = 3 →
        ¬(((cfg.gpio l &&& data.getD (16 + k) 0) ≠ 0) ↔ ((l = 2 ∧ k = 3) ∨ (l = 3 ∧ k = 2))) →
        pads_update cfg data = pads_update_plain cfg data) := by
  constructor
  · cases hE : cfg.fourscore_enabled with
    | false =>
      have hdec : (cfg.fourscore_enabled && fourscore_connected cfg data) = false := by
        rw [hE]
        rfl
      rw [pads_update_plain_eq hdec, if_neg fun hc => Bool.false_ne_true hc.1]
    | true =>
      by_cases hS : fourscore_signature_spec cfg data
      · have hc : fourscore_connected cfg data = true :=
          (fourscore_connected_iff_spec cfg data).mpr hS
        have hdec : (cfg.fourscore_enabled && fourscore_connected cfg data) = true := by
          rw [hE, hc]
          rfl
        rw [if_pos ⟨rfl, hS⟩]
        simp [pads_update, hdec]
      · have hc : fourscore_connected cfg data = false := by
          cases hcc : fourscore_connected cfg data
          · rfl
          · exact absurd ((fourscore_connected_iff_spec cfg data).mp hcc) hS
        have hdec : (cfg.fourscore_enabled && fourscore_connected cfg data) = false := by
          rw [hE, hc]
          rfl
        rw [pads_update_plain_eq hdec, if_neg fun hcon => hS hcon.2]
  · intro k hk l hl hdev
    have hc : fourscore_connected cfg data = false := by
      cases hcc : fourscore_connected cfg data
      · rfl
      · exfalso
        have hspec := (fourscore_connected_iff_spec cfg data).mp hcc
        rcases hl with rfl | rfl
        · exact hdev (((hspec k hk).1).trans (by omega))
        · exact hdev (((hspec k hk).2).trans (by omega))
    have hdec : (cfg.fourscore_enabled && fourscore_connected cfg data) = false := by
      rw [hc]
      exact Bool.and_false _
    exact pads_update_plain_eq hdec

/-- Witness for C2: with FourScore enabled but the frame dataW2 deviating
from the signature in one tested bit (gpio[2] bit of sample 16 high), the
poll uses the plain path. -/
theorem fourscore_selection_iff_witness :
    pads_update cfgW2 dataW2 = pads_update_plain cfgW2 dataW2 :=
  (fourscore_selection_iff cfgW2 dataW2).2 0 (by omega) 2 (Or.inl rfl) (by decide)

/-- C3: evaluation of the mode shrink scenario.  snescon_init always makes
n_pads equal n_pad_gpios (first conjunct, five configured GPIOs give
n_pads = n_pad_gpios = 3), so the plain branch of pads_update passes
n_pads - n_pad_gpios = 0 to pads_clear.  At cfgC3 (player_mode 5,
n_pad_gpios 3) pads_update does set player_mode to 3, but clears zero
slots: no event at all reaches slots 3 and 4, although the claim requires
an all zero dispatch to exactly those two trailing slots. -/
theorem mode_shrink_clear_eval_bug :
    (∃ c, snescon_init_cfg [2, 3, 4, 7, 9] 5 false = some c
       ∧ c.n_pads = 3 ∧ c.n_pad_gpios = 3)
    ∧ 3 < cfgC3.player_mode
    ∧ (pads_update cfgC3 dataC3).1 = 3
    ∧ pads_clear cfgC3 (cfgC3.n_pads - cfgC3.n_pad_gpios) = []
    ∧ ((pads_update cfgC3 dataC3).2.filter fun e => 3 ≤ ev_slot e) = [] :=
  ⟨⟨_, rfl, rfl, rfl⟩, by decide, by decide, by decide, by decide⟩

/-- C4 counterexample: at cfgC4 and dataC4 (pin bit low at sample 6, high
at sample 7) the dispatched horizontal axis value is +1, while the formula
claimed by the specification, (not bit at index 7) minus (not bit at
index 6), evaluates to -1.  The claimed formula therefore does not describe
the dispatched value. -/
theorem axis_formula_claim_cex :
    abs_values ((pads_update cfgC4 dataC4).2) 0 ABS_X = [1]
    ∧ bang (cfgC4.gpio 2 &&& dataC4.getD 7 0) - bang (cfgC4.gpio 2 &&& dataC4.getD 6 0) = -1 :=
  ⟨by decide, by decide⟩

/-- C4 amended: in the plain path the dispatched horizontal axis value of
every decoded slot equals (not bit at sample 6) minus (not bit at
sample 7), the vertical value equals (not bit at sample 4) minus (not bit
at sample 5), and each axis value is -1, 0 or +1. -/
theorem axis_formula_amended (cfg : PadsConfig) (data : List Nat) (i : Nat)
    (hfs : (cfg.fourscore_enabled && fourscore_connected cfg data) = false)
    (hi : i < cfg.n_pad_gpios) :
    abs_values ((pads_update cfg data).2) i ABS_X =
      [bang (cfg.gpio (i + 2) &&& data.getD 6 0) - bang (cfg.gpio (i + 2) &&& data.getD 7 0)]
    ∧ abs_values ((pads_update cfg data).2) i ABS_Y =
      [bang (cfg.gpio (i + 2) &&& data.getD 4 0) - bang (cfg.gpio (i + 2) &&& data.getD 5 0)]
    ∧ (∀ v ∈ abs_values ((pads_update cfg data).2) i ABS_X, v = -1 ∨ v = 0 ∨ v = 1)
    ∧ (∀ v ∈ abs_values ((pads_update cfg data).2) i ABS_Y, v = -1 ∨ v = 0 ∨ v = 1) := by
  refine ⟨plain_abs_x hfs hi, plain_abs_y hfs hi, ?_, ?_⟩
  · intro v hv
    rw [plain_abs_x hfs hi, List.mem_singleton] at hv
    rw [hv]
    exact bang_sub_cases _ _
  · intro v hv
    rw [plain_abs_y hfs hi, List.mem_singleton] at hv
    rw [hv]
    exact bang_sub_cases _ _

/-- Witness for the amended C4 at cfgC4 and dataC4. -/
theorem axis_formula_amended_witness :
    ((cfgC4.fourscore_enabled && fourscore_connected cfgC4 dataC4) = false)
    ∧ 0 < cfgC4.n_pad_gpios
    ∧ abs_values ((pads_update cfgC4 dataC4).2) 0 ABS_X =
        [bang (cfgC4.gpio 2 &&& dataC4.getD 6 0) - bang (cfgC4.gpio 2 &&& dataC4.getD 7 0)] :=
  ⟨by decide, by decide, (axis_formula_amended cfgC4 dataC4 0 (by decide) (by decide)).1⟩

/-- C5: truth table of the dispatched axes of every plain decoded slot:
horizontal from the pin bits of samples 6 and 7 (both low gives 0, only 7
high gives +1, only 6 high gives -1, both high gives 0), and the same law
for the vertical axis with samples 4 and 5. -/
theorem axis_truth_table (cfg : PadsConfig) (data : List Nat) (i : Nat)
    (hfs : (cfg.fourscore_enabled && fourscore_connected cfg data) = false)
    (hi : i < cfg.n_pad_gpios) :
    ((cfg.gpio (i + 2) &&& data.getD 6 0 = 0 → cfg.gpio (i + 2) &&& data.getD 7 0 = 0 →
        abs_values ((pads_update cfg data).2) i ABS_X = [0])
     ∧ (cfg.gpio (i + 2) &&& data.getD 6 0 = 0 → cfg.gpio (i + 2) &&& data.getD 7 0 ≠ 0 →
        abs_values ((pads_update cfg data).2) i ABS_X = [1])
     ∧ (cfg.gpio (i + 2) &&& data.getD 6 0 ≠ 0 → cfg.gpio (i + 2) &&& data.getD 7 0 = 0 →
        abs_values ((pads_update cfg data).2) i ABS_X = [-1])
     ∧ (cfg.gpio (i + 2) &&& data.getD 6 0 ≠ 0 → cfg.gpio (i + 2) &&& data.getD 7 0 ≠ 0 →
        abs_values ((pads_update cfg data).2) i ABS_X = [0]))
    ∧ ((cfg.gpio (i + 2) &&& data.getD 4 0 = 0 → cfg.gpio (i + 2) &&& data.getD 5 0 = 0 →
        abs_values ((pads_update cfg data).2) i ABS_Y = [0])
     ∧ (cfg.gpio (i + 2) &&& data.getD 4 0 = 0 → cfg.gpio (i + 2) &&& data.getD 5 0 ≠ 0 →
        abs_values ((pads_update cfg data).2) i ABS_Y = [1])
     ∧ (cfg.gpio (i + 2) &&& data.getD 4 0 ≠ 0 → cfg.gpio (i + 2) &&& data.getD 5 0 = 0 →
        abs_values ((pads_update cfg data).2) i ABS_Y = [-1])
     ∧ (cfg.gpio (i + 2) &&& data.getD 4 0 ≠ 0 → cfg.gpio (i + 2) &&& data.getD 5 0 ≠ 0 →
        abs_values ((pads_update cfg data).2) i ABS_Y = [0])) := by
  have hx := plain_abs_x hfs hi
  have hy := plain_abs_y hfs hi
  refine ⟨⟨?_, ?_, ?_, ?_⟩, ?_, ?_, ?_, ?_⟩ <;> intro ha hb
  · rw [hx, bang_eq_one ha, bang_eq_one hb]; norm_num
  · rw [hx, bang_eq_one ha, bang_eq_zero hb]; norm_num
  · rw [hx, bang_eq_zero ha, bang_eq_one hb]; norm_num
  · rw [hx, bang_eq_zero ha, bang_eq_zero hb]; norm_num
  · rw [hy, bang_eq_one ha, bang_eq_one hb]; norm_num
  · rw [hy, bang_eq_one ha, bang_eq_zero hb]; norm_num
  · rw [hy, bang_eq_zero ha, bang_eq_one hb]; norm_num
  · rw [hy, bang_eq_zero ha, bang_eq_zero hb]; norm_num

/-- Witness for C5 at cfgC4 and dataW5: pin bit high at sample 6, low at
sample 7, dispatched horizontal axis -1. -/
theorem axis_truth_table_witness :
    ((cfgC4.fourscore_enabled && fourscore_connected cfgC4 dataW5) = false)
    ∧ 0 < cfgC4.n_pad_gpios
    ∧ cfgC4.gpio 2 &&& dataW5.getD 6 0 ≠ 0
    ∧ cfgC4.gpio 2 &&& dataW5.getD 7 0 = 0
    ∧ abs_values ((pads_update cfgC4 dataW5).2) 0 ABS_X = [-1] :=
  ⟨by decide, by decide, by decide, by decide,
   (axis_truth_table cfgC4 dataW5 0 (by decide) (by decide)).1.2.2.1 (by decide) (by decide)⟩

/-- C6: whenever the FourScore branch runs, pads_update dispatches a sync
(and with it buttons and axes) to each of slots 0, 1, 2, 3, with no guard
on n_pad_gpios; and snescon_init accepts a FourScore enabled configuration
of 4 (or 5) valid pins while allocating only n_pads = 2 (or 3) devices, so
the dispatch touches slot indices beyond the allocated range. -/
theorem fourscore_slot_overrun (cfg : PadsConfig) (data : List Nat)
    (hE : cfg.fourscore_enabled = true) (hC : fourscore_connected cfg data = true) :
    (∀ s, s < 4 → Ev.sync s ∈ (pads_update cfg data).2)
    ∧ (∀ gpio_id cnt, cnt = 4 ∨ cnt = 5 → gpio_list_valid gpio_id cnt = true →
        ∃ c, snescon_init_cfg gpio_id cnt true = some c
          ∧ c.n_pads = cnt - 2 ∧ c.n_pads ≤ 3 ∧ (cnt = 4 → c.n_pads ≤ 2)) := by
  constructor
  · intro s hs
    have hdec : (cfg.fourscore_enabled && fourscore_connected cfg data) = true := by
      rw [hE, hC]
      rfl
    have hupd : pads_update cfg data = pads_update_fourscore cfg data := by
      simp [pads_update, hdec]
    rw [hupd]
    have hbase : Ev.sync s ∈ (List.range 2).flatMap (fourscore_lo_evs cfg data)
        ++ (List.range' 2 2).flatMap (fourscore_hi_evs cfg data) := by
      rw [show List.range 2 = [0, 1] from rfl, show List.range' 2 2 = [2, 3] from rfl]
      interval_cases s <;> simp [fourscore_lo_evs, fourscore_hi_evs]
    simp only [pads_update_fourscore]
    split_ifs <;>
      first
        | exact List.mem_append_left _ hbase
        | exact hbase
  · intro gpio_id cnt hcnt hvalid
    have hv : snescon_init_valid gpio_id cnt true = true := by
      unfold snescon_init_valid
      rcases hcnt with rfl | rfl <;>
        simp [MIN_NUMBER_OF_GPIOS, MAX_NUMBER_OF_GPIOS, hvalid]
    refine ⟨{ gpio := fun i => if i < cnt then gpio_get_bit (gpio_id.getD i 0) else 0,
              n_pads := init_n_pads cnt true,
              n_pad_gpios := cnt - 2,
              player_mode := 0,
              fourscore_enabled := true }, ?_, ?_, ?_, ?_⟩
    · unfold snescon_init_cfg
      rw [if_pos hv]
    · show init_n_pads cnt true = cnt - 2
      unfold init_n_pads
      rcases hcnt with rfl | rfl <;> simp
    · show init_n_pads cnt true ≤ 3
      unfold init_n_pads
      rcases hcnt with rfl | rfl <;> simp
    · intro h4
      subst h4
      show init_n_pads 4 true ≤ 2
      simp [init_n_pads]

/-- Witness for C6: the FourScore frame dataW6 on cfgW6 (two data lines,
n_pads = 2) makes pads_update sync slot 3, and a 4 pin FourScore
configuration passes validation with only 2 allocated pads. -/
theorem fourscore_slot_overrun_witness :
    Ev.sync 3 ∈ (pads_update cfgW6 dataW6).2
    ∧ (∃ c, snescon_init_cfg [2, 3, 4, 7] 4 true = some c
        ∧ c.n_pads = 4 - 2 ∧ c.n_pads ≤ 3 ∧ (4 = 4 → c.n_pads ≤ 2)) :=
  ⟨(fourscore_slot_overrun cfgW6 dataW6 rfl (by decide)).1 3 (by omega),
   (fourscore_slot_overrun cfgW6 dataW6 rfl (by decide)).2 [2, 3, 4, 7] 4 (Or.inl rfl)
     (by decide)⟩

theorem flatMap_range_capture (clk : Nat) :
    ∀ n, (List.range n).flatMap (capture_cycle clk) = capture_spec_loop clk n := by
  intro n
  induction n with
  | zero => rfl
  | succ n ih =>
    rw [List.range_succ, List.flatMap_append, ih]
    simp [capture_spec_loop]

theorem filterMap_sample_range (clk : Nat) :
    ∀ n, ((List.range n).flatMap (capture_cycle clk)).filterMap sample_index = List.range n := by
  intro n
  induction n with
  | zero => rfl
  | succ n ih =>
    rw [List.range_succ, List.flatMap_append, List.filterMap_append, ih]
    simp [capture_cycle, sample_index]

/-- C7: the GPIO operation trace of pads_read is exactly: raise clock and
latch together, wait 2 times DELAY, drop latch, followed by 24 capture
cycles (wait DELAY, drop clock, sample into the next frame position, wait
DELAY, raise clock), and its samples land in positions 0 to 23 in clock
cycle order. -/
theorem pads_read_sequence (clk latch : Nat) :
    pads_read_trace clk latch =
      [GpioOp.set (clk ||| latch), GpioOp.wait (2 * DELAY), GpioOp.clear latch]
        ++ capture_spec_loop clk 24
    ∧ (pads_read_trace clk latch).filterMap sample_index = List.range 24 := by
  constructor
  · show [GpioOp.set (clk ||| latch), GpioOp.wait (DELAY * 2), GpioOp.clear latch]
      ++ (List.range BITS_LENGTH).flatMap (capture_cycle clk) = _
    rw [flatMap_range_capture clk BITS_LENGTH]
    rfl
  · show ([GpioOp.set (clk ||| latch), GpioOp.wait (DELAY * 2), GpioOp.clear latch]
      ++ (List.range BITS_LENGTH).flatMap (capture_cycle clk)).filterMap sample_index = _
    rw [List.filterMap_append, filterMap_sample_range clk BITS_LENGTH]
    rfl

/-- C8: every slot taken through the NES branch of the plain path receives
exactly these key events, in order: the four NES labels A, B, Select,
Start valued from frame samples 0, 1, 2, 3, then the four SNES only labels
X, Y, TL, TR each explicitly valued 0, within the same poll. -/
theorem nes_zeroing (cfg : PadsConfig) (data : List Nat) (i : Nat)
    (hfs : (cfg.fourscore_enabled && fourscore_connected cfg data) = false)
    (hi : i < cfg.n_pad_gpios)
    (hnes : cfg.gpio (i + 2) &&& data.getD 16 0 ≠ 1) :
    slot_keys ((pads_update cfg data).2) i =
      [(BTN_A, cfg.gpio (i + 2) &&& data.getD 0 0),
       (BTN_B, cfg.gpio (i + 2) &&& data.getD 1 0),
       (BTN_SELECT, cfg.gpio (i + 2) &&& data.getD 2 0),
       (BTN_START, cfg.gpio (i + 2) &&& data.getD 3 0),
       (BTN_X, 0), (BTN_Y, 0), (BTN_TL, 0), (BTN_TR, 0)] := by
  show List.filterMap (keySel i) _ = _
  rw [plain_filterMap (keySel i) (fun _ he => keySel_eq_none he) hfs hi]
  unfold plain_slot_evs
  rw [if_neg (by simpa using hnes)]
  exact slot_keys_nes_block cfg data i

/-- Witness for C8 at cfgW8 and dataW8: sample 0 carries the pin bit, so
button A is reported pressed (raw value 16) and X, Y, TL, TR are zeroed. -/
theorem nes_zeroing_witness :
    ((cfgW8.fourscore_enabled && fourscore_connected cfgW8 dataW8) = false)
    ∧ 0 < cfgW8.n_pad_gpios
    ∧ cfgW8.gpio 2 &&& dataW8.getD 16 0 ≠ 1
    ∧ slot_keys ((pads_update cfgW8 dataW8).2) 0 =
        [(BTN_A, 16), (BTN_B, 0), (BTN_SELECT, 0), (BTN_START, 0),
         (BTN_X, 0), (BTN_Y, 0), (BTN_TL, 0), (BTN_TR, 0)] :=
  ⟨by decide, by decide, by decide,
   by rw [nes_zeroing cfgW8 dataW8 0 (by decide) (by decide) (by decide)]; decide⟩

/-- C9: snescon_init refuses the configuration (and the driver never starts
polling) exactly when the pin count is below 3 or above 7, or FourScore is
enabled with fewer than 4 pins, or one of the configured pin ids lies
outside the fixed valid pin list; otherwise a configuration is built. -/
theorem init_validation_iff (gpio_id : List Nat) (cnt : Nat) (fourscore : Bool) :
    snescon_init_cfg gpio_id cnt fourscore = none ↔
      (cnt < 3 ∨ 7 < cnt ∨ (fourscore = true ∧ cnt < 4)
       ∨ ∃ i, i < cnt ∧ gpio_id.getD i 0 ∉ all_valid_gpio) :=
  (snescon_init_cfg_none_iff gpio_id cnt fourscore).trans
    (snescon_init_valid_false_iff gpio_id cnt fourscore)

/-- C10: player_mode ≤ max 4 n_pad_gpios is preserved by pads_update; the
plain branch never increases player_mode, and the FourScore branch always
leaves it at exactly 4. -/
theorem player_mode_invariant (cfg : PadsConfig) (data : List Nat) :
    ((cfg.fourscore_enabled && fourscore_connected cfg data) = true →
      (pads_update cfg data).1 = 4)
    ∧ ((cfg.fourscore_enabled && fourscore_connected cfg data) = false →
      (pads_update cfg data).1 ≤ cfg.player_mode)
    ∧ (cfg.player_mode ≤ max 4 cfg.n_pad_gpios →
      (pads_update cfg data).1 ≤ max 4 cfg.n_pad_gpios) := by
  refine ⟨fun h => pads_update_fourscore_mode h, fun h => pads_update_plain_mode_le h, ?_⟩
  intro hle
  cases hb : (cfg.fourscore_enabled && fourscore_connected cfg data)
  · exact le_trans (pads_update_plain_mode_le hb) hle
  · rw [pads_update_fourscore_mode hb]
    exact le_max_left 4 cfg.n_pad_gpios

/-- Witness for C10 at cfgW10 (player_mode 3, three data lines). -/
theorem player_mode_invariant_witness :
    cfgW10.player_mode ≤ max 4 cfgW10.n_pad_gpios
    ∧ (pads_update cfgW10 dataW10).1 ≤ max 4 cfgW10.n_pad_gpios :=
  ⟨by decide, (player_mode_invariant cfgW10 dataW10).2.2 (by decide)⟩
